import Mathlib

/-!
# grpc-over-http gateway: a verification development

A shallow embedding of `gateway/codec.go` and `gateway/gateway.go`.

* Go byte slices are `List UInt8`-like lists of naturals (`Bytes`); strings are `String`.
* A Go `error` value is `Option GoError`: `none` is `nil`.
* Calls on collaborators (the HTTP response writer, the WebSocket connection, the backend
  client connection, the logger) are recorded as events, in program order.
* The results those collaborators hand back (body read result, backend replies, write
  outcomes, channel polls) are inputs of the handler functions.
-/

namespace Gateway

/-- A Go byte slice `[]byte`, by value. -/
abbrev Bytes := List Nat

/-! ## Status and error values -/

/-- A gRPC status as seen through `Code()` and `Message()`. The code is a `codes.Code`,
a `uint32`; the defined codes are `0 .. 16`. -/
structure Status where
  code : Nat
  message : String
  deriving DecidableEq, Repr

/-- The Go `error` values the gateway distinguishes: the sentinel `io.EOF`, an error that
carries a gRPC status (it implements `GRPCStatus()`), and every other error. -/
inductive GoError where
  | eof : GoError
  | grpc (s : Status) : GoError
  | plain (text : String) : GoError
  deriving DecidableEq, Repr

/-- The text of `err.Error()`. -/
def GoError.Error : GoError → String
  | .eof => "EOF"
  | .grpc s => s.message
  | .plain t => t

/-- Code `codes.OK`. -/
def codesOK : Nat := 0
/-- Code `codes.Unknown`. -/
def codesUnknown : Nat := 2

/-- Library function `status.FromError`: a nil error is the OK status, an error carrying a
status yields it, and any other error yields an `Unknown` status with `ok = false`. -/
def FromError : Option GoError → Status × Bool
  | none => (⟨codesOK, ""⟩, true)
  | some (.grpc s) => (s, true)
  | some e => (⟨codesUnknown, e.Error⟩, false)

/-! ## WebSocket close messages -/

/-- Constant `websocket.CloseNormalClosure`. -/
def CloseNormalClosure : Int := 1000
/-- Constant `websocket.CloseInternalServerErr`. -/
def CloseInternalServerErr : Int := 1011

/-- Constant `websocket.CloseNoStatusReceived`. -/
def CloseNoStatusReceived : Int := 1005

/-- The payload of a close frame, read as RFC 6455 reads it: the close code is the value of
the 2-byte code field and the text is the reason that follows it; a payload with no bytes
has the code 1005 (no status received) and no reason. -/
structure CloseMessage where
  closeCode : Int
  text : String
  deriving DecidableEq, Repr

/-- Library function `websocket.FormatCloseMessage(closeCode, text)`: for
`CloseNoStatusReceived` it returns a payload with no bytes; otherwise the payload is
`uint16(closeCode)`, the low 16 bits of the code, in a 2-byte field, followed by the
text. -/
def FormatCloseMessage (closeCode : Int) (text : String) : CloseMessage :=
  if closeCode = CloseNoStatusReceived then
    ⟨CloseNoStatusReceived, ""⟩
  else
    ⟨closeCode % 65536, text⟩

/-- Function `grpcStatusToCloseMessage` of `gateway.go`. The sum `4000 + int(s.Code())` of
a `uint32` and 4000 does not overflow a 64-bit `int`, so it is taken in the integers; the
library then keeps its low 16 bits. -/
def grpcStatusToCloseMessage (err : Option GoError) : CloseMessage :=
  if err = none ∨ err = some GoError.eof then
    FormatCloseMessage CloseNormalClosure ""
  else
    let r := FromError err
    if !r.2 then
      FormatCloseMessage CloseInternalServerErr ""
    else
      FormatCloseMessage (4000 + (r.1.code : Int)) r.1.message

/-- The close frame as the specification words it: clean termination gives 1000, a
recognizable status with code `c` and message `m` gives `4000 + c` with reason `m`, and
anything else gives 1011. -/
def closeFrameSpec : Option GoError → CloseMessage
  | none => ⟨1000, ""⟩
  | some .eof => ⟨1000, ""⟩
  | some (.grpc s) => ⟨4000 + (s.code : Int), s.message⟩
  | some (.plain _) => ⟨1011, ""⟩

/-! ## The opaque codec (`codec.go`) -/

/-- A Go value boxed in an `interface{}`, by dynamic type: the nil interface, a `[]byte`,
a `*[]byte` (an address of a byte-slice variable, or the nil pointer), a `string`, or a
value of some other type, of which only the type name matters. -/
inductive GoValue where
  | nilValue : GoValue
  | bytes (b : Bytes) : GoValue
  | bytesPtr (p : Option Nat) : GoValue
  | str (s : String) : GoValue
  | other (typeName : String) : GoValue
  deriving DecidableEq, Repr

/-- The text `%T` prints for a value. -/
def GoValue.typeName : GoValue → String
  | .nilValue => "<nil>"
  | .bytes _ => "[]uint8"
  | .bytesPtr _ => "*[]uint8"
  | .str _ => "string"
  | .other t => t

/-- The byte-slice variables of the program, by address. -/
abbrev Heap := Nat → Bytes

/-- How a call ends: it returns a nil error, returns a non-nil error, or panics. -/
inductive CallResult where
  | ok : CallResult
  | error (e : GoError) : CallResult
  | panic : CallResult
  deriving DecidableEq, Repr

/-- Method `BinaryCodec.Marshal`: the type assertion `value.([]byte)` decides; on failure
the result is the nil slice and an error. -/
def BinaryCodec.Marshal (value : GoValue) : Bytes × Option GoError :=
  match value with
  | .bytes v => (v, none)
  | _ => ([], some (.plain ("invalid type: " ++ value.typeName)))

/-- Method `BinaryCodec.Unmarshal`: the type assertion `value.(*[]byte)` decides; on success
`*v = data` stores the data in the variable `v` points to. The assertion also accepts a nil
`*[]byte`, and the store through it panics. -/
def BinaryCodec.Unmarshal (data : Bytes) (value : GoValue) (h : Heap) : Heap × CallResult :=
  match value with
  | .bytesPtr (some v) => (Function.update h v data, .ok)
  | .bytesPtr none => (h, .panic)
  | _ => (h, .error (.plain ("invalid type: " ++ value.typeName)))

/-- Method `BinaryCodec.Name`. -/
def BinaryCodec.Name : String := "binary-codec"

/-! ## HTTP status mapping -/

/-- Library function `runtime.HTTPStatusFromCode` of grpc-gateway: the table from gRPC
codes to HTTP status codes; a code outside the table gives 500. -/
def HTTPStatusFromCode (code : Nat) : Nat :=
  match code with
  | 0 => 200   -- OK
  | 1 => 408   -- Canceled
  | 2 => 500   -- Unknown
  | 3 => 400   -- InvalidArgument
  | 4 => 504   -- DeadlineExceeded
  | 5 => 404   -- NotFound
  | 6 => 409   -- AlreadyExists
  | 7 => 403   -- PermissionDenied
  | 8 => 429   -- ResourceExhausted
  | 9 => 400   -- FailedPrecondition
  | 10 => 409  -- Aborted
  | 11 => 400  -- OutOfRange
  | 12 => 501  -- Unimplemented
  | 13 => 500  -- Internal
  | 14 => 503  -- Unavailable
  | 15 => 500  -- DataLoss
  | 16 => 401  -- Unauthenticated
  | _ => 500

/-! ## Events -/

/-- A frame written to the WebSocket connection. -/
inductive Frame where
  | binary (payload : Bytes) : Frame
  | close (msg : CloseMessage) : Frame
  deriving DecidableEq, Repr

/-- The close message of a close frame. -/
def Frame.asClose : Frame → Option CloseMessage
  | .close c => some c
  | .binary _ => none

/-- What a handler does to its collaborators, one event per call. -/
inductive Event where
  /-- Call `req.Body.Close()`. -/
  | bodyClose : Event
  /-- A log line. -/
  | log (msg : String) : Event
  /-- Call `m.cc.Invoke(ctx, fullMethod, payload, resp)`. -/
  | invoke (fullMethod : String) (payload : Bytes) : Event
  /-- Call `http.Error(w, msg, code)`. -/
  | httpError (msg : String) (code : Nat) : Event
  /-- Call `io.Copy(w, bytes.NewBuffer(body))`. -/
  | copy (body : Bytes) : Event
  /-- Call `m.cc.NewStream(streamCtx, streamDesc, fullMethod)`. -/
  | newStream (fullMethod : String) : Event
  /-- The statement `go func() ...` that starts the inbound-read pump. -/
  | startPump : Event
  /-- Call `cs.RecvMsg(respBytes)`. -/
  | recvMsg : Event
  /-- Call `ws.WriteMessage(websocket.BinaryMessage, payload)`. -/
  | writeBinary (payload : Bytes) : Event
  /-- Call `ws.WriteMessage(websocket.CloseMessage, msg)`. -/
  | writeClose (msg : CloseMessage) : Event
  /-- The deferred `cancelFunc()`. -/
  | cancel : Event
  /-- The deferred `ws.Close()`. -/
  | wsClose : Event
  deriving DecidableEq, Repr

/-- The backend invocations of a trace, in order. -/
def invocations : List Event → List (String × Bytes)
  | [] => []
  | .invoke m b :: t => (m, b) :: invocations t
  | _ :: t => invocations t

/-- The `http.Error` calls of a trace, in order, as (message, status). -/
def httpErrors : List Event → List (String × Nat)
  | [] => []
  | .httpError msg c :: t => (msg, c) :: httpErrors t
  | _ :: t => httpErrors t

/-- The bodies copied to the response writer, in order. -/
def copied : List Event → List Bytes
  | [] => []
  | .copy b :: t => b :: copied t
  | _ :: t => copied t

/-- The frames written to the WebSocket, in order. -/
def frames : List Event → List Frame
  | [] => []
  | .writeBinary b :: t => .binary b :: frames t
  | .writeClose c :: t => .close c :: frames t
  | _ :: t => frames t

/-- The close frames written to the WebSocket, in order. -/
def closeFrames (tr : List Event) : List CloseMessage :=
  (frames tr).filterMap Frame.asClose

/-- The status line of the HTTP response a unary trace produces: the code of the first
`http.Error`, and 200 when the handler never sets one. -/
def responseStatus (tr : List Event) : Nat :=
  match httpErrors tr with
  | (_, c) :: _ => c
  | [] => 200

/-! ## The unary forwarder (`Mux.unaryHandler`) -/

/-- The parts of an `*http.Request` the unary handler reads: the method, the value of
`req.Header.Get("Content-type")`, and the result of `ioutil.ReadAll(req.Body)`. -/
structure Request where
  Method : String
  contentType : String
  body : Bytes
  bodyErr : Option GoError

/-- The backend behind `m.cc.Invoke`: given the method and the request bytes it fails with
a non-nil error or stores reply bytes in the response slot. -/
abbrev ClientConn := String → Bytes → Except GoError Bytes

/-- Constant `http.StatusMethodNotAllowed`. -/
def StatusMethodNotAllowed : Nat := 405
/-- Constant `http.StatusBadRequest`. -/
def StatusBadRequest : Nat := 400
/-- Constant `http.StatusInternalServerError`. -/
def StatusInternalServerError : Nat := 500
/-- Constant `http.StatusBadGateway`. -/
def StatusBadGateway : Nat := 502

/-- Function `Mux.unaryHandler`: the handler closure for `fullMethod`, run on one request.
`copyErr` is the error `io.Copy` returns when the response socket takes a short write. -/
def unaryHandler (cc : ClientConn) (fullMethod : String) (copyErr : Option GoError)
    (req : Request) : List Event :=
  if req.Method ≠ "POST" then
    [.httpError "" StatusMethodNotAllowed]
  else if req.contentType ≠ "application/proto" then
    [.httpError "" StatusBadRequest]
  else
    match req.bodyErr with
    | some _ =>
      [.bodyClose, .log "Failed to ready request body",
        .httpError "" StatusInternalServerError]
    | none =>
      match cc fullMethod req.body with
      | .error err =>
        let r := FromError (some err)
        if !r.2 then
          [.bodyClose, .invoke fullMethod req.body,
            .httpError "gateway error" StatusBadGateway]
        else
          [.bodyClose, .invoke fullMethod req.body,
            .httpError r.1.message (HTTPStatusFromCode r.1.code)]
      | .ok resp =>
        match copyErr with
        | some _ =>
          [.bodyClose, .invoke fullMethod req.body, .copy resp,
            .log "Failed to send response"]
        | none => [.bodyClose, .invoke fullMethod req.body, .copy resp]

/-! ## The stream forwarder (`Mux.streamHandler`) -/

/-- What the collaborators of one stream session hand back to the handler task.

* `upgradeErr`: the error of `m.upgrader.Upgrade`.
* `newStreamErr`: the error of `m.cc.NewStream`.
* `polls i`: what the `select` on `readErrCh` finds in loop iteration `i`: `none` when
  nothing is ready (the `default` branch), `some e` when the receive yields `e` (the error
  the pump published, or nil once the pump has closed the channel).
* `recvs`, `recvErr`: the backend stream yields the messages `recvs` to successive
  `cs.RecvMsg` calls, and then fails with the non-nil error `recvErr`.
* `writeErrs i`: the error of the `i`-th binary `ws.WriteMessage`.
* `closeWriteErr`: the error of the `ws.WriteMessage` that carries the close frame. -/
structure StreamEnv where
  upgradeErr : Option GoError
  newStreamErr : Option GoError
  polls : Nat → Option (Option GoError)
  recvs : List Bytes
  recvErr : GoError
  writeErrs : Nat → Option GoError
  closeWriteErr : Option GoError

/-- The local variables of the handler loop and the trace so far. -/
structure LoopState where
  err : Option GoError
  respBytes : Bytes
  trace : List Event

/-- The `select` at the head of the loop body: `case err = <-readErrCh: break` assigns the
received value to `err` and leaves the `select` statement; `default:` does nothing. Both
branches continue with the statement after the `select`. -/
def selectReadErr (poll : Option (Option GoError)) (st : LoopState) : LoopState :=
  match poll with
  | some e => { st with err := e }
  | none => st

/-- The `for` loop of `Mux.streamHandler`, from iteration `i` on, with `pending` the
messages the backend stream has yet to yield. It returns the state in which the loop is
left. -/
def streamLoop (env : StreamEnv) : Nat → List Bytes → LoopState → LoopState
  | i, [], st =>
    let st1 := selectReadErr (env.polls i) st
    -- err = cs.RecvMsg(respBytes) fails: break
    { st1 with err := some env.recvErr, trace := st1.trace ++ [.recvMsg] }
  | i, m :: pending, st =>
    let st1 := selectReadErr (env.polls i) st
    -- err = cs.RecvMsg(respBytes) succeeds and stores the message
    let st2 : LoopState :=
      { st1 with err := none, respBytes := m, trace := st1.trace ++ [.recvMsg] }
    -- err = ws.WriteMessage(websocket.BinaryMessage, *respBytes)
    let st3 : LoopState :=
      { st2 with err := env.writeErrs i, trace := st2.trace ++ [.writeBinary st2.respBytes] }
    match st3.err with
    | some _ => st3
    | none => streamLoop env (i + 1) pending st3

/-- Function `Mux.streamHandler`: the handler closure for `fullMethod`, run on one request.
The deferred calls run last, in reverse order of their `defer` statements. -/
def streamHandler (fullMethod : String) (env : StreamEnv) : List Event :=
  match env.upgradeErr with
  | some _ => [.log "Failed to upgrade connection"]
  | none =>
    match env.newStreamErr with
    | some _ =>
      [.newStream fullMethod, .log "Failed to initialize grpc stream",
        .writeClose (FormatCloseMessage CloseInternalServerErr "")]
      ++ (match env.closeWriteErr with
          | some _ => [.log "Failed to write close message"]
          | none => [])
      ++ [.cancel, .wsClose]
    | none =>
      let st := streamLoop env 0 env.recvs ⟨none, [], [.newStream fullMethod, .startPump]⟩
      st.trace ++ [.writeClose (grpcStatusToCloseMessage st.err)]
      ++ (match env.closeWriteErr with
          | some _ => [.log "Failed to write error status"]
          | none => [])
      ++ [.cancel, .wsClose]

/-! ## The route table (`New`) -/

/-- The elements of a slash-separated path that `path.Clean` keeps, most recent first.
Empty elements and `.` are dropped; `..` removes the element before it, is dropped at the
root of a rooted path, and is kept at the start of a relative path. -/
def cleanElems (rooted : Bool) : List (List Char) → List (List Char) → List (List Char)
  | [], acc => acc
  | e :: es, acc =>
    if e = [] ∨ e = ['.'] then cleanElems rooted es acc
    else if e = ['.', '.'] then
      match acc with
      | [] => if rooted then cleanElems rooted es [] else cleanElems rooted es [e]
      | top :: rest =>
        if top = ['.', '.'] then cleanElems rooted es (e :: acc)
        else cleanElems rooted es rest
    else cleanElems rooted es (e :: acc)

/-- A path element that `path.Clean` keeps in place: not empty, not `.` and not `..`. -/
def plainElem (e : List Char) : Prop := e ≠ [] ∧ e ≠ ['.'] ∧ e ≠ ['.', '.']

instance (e : List Char) : Decidable (plainElem e) := by
  unfold plainElem
  infer_instance

/-- Library function `path.Clean`, on the characters of the path: the shortest path name
equivalent to the argument by purely lexical processing. -/
def Clean (p : List Char) : List Char :=
  let rooted := p.head? = some '/'
  let kept := (cleanElems rooted (p.splitOn '/') []).reverse
  let out := (if rooted then ['/'] else []) ++ ['/'].intercalate kept
  if out = [] then ['.'] else out

/-- Library function `path.Join`: the elements are joined with slashes, leading empty
elements ignored, and the result is cleaned; all elements empty gives the empty string. -/
def Join (elem : List String) : String :=
  match (elem.map String.data).dropWhile (fun e => e = []) with
  | [] => ""
  | es => String.mk (Clean (['/'].intercalate es))

/-- The fields of a `grpc.MethodInfo`. -/
structure MethodInfo where
  Name : String
  IsClientStream : Bool
  IsServerStream : Bool
  deriving DecidableEq, Repr

/-- The fields of a `grpc.ServiceInfo` that `New` reads. -/
structure ServiceInfo where
  Methods : List MethodInfo
  deriving DecidableEq, Repr

/-- The handler closures `New` builds, by the function that builds them and its argument. -/
inductive Handler where
  | streamHandler (fullMethod : String) : Handler
  | unaryHandler (fullMethod : String) : Handler
  deriving DecidableEq, Repr

/-- One call `m.router.HandleFunc(httpPath, handler)`. -/
structure Route where
  httpPath : String
  handler : Handler
  deriving DecidableEq, Repr

/-- The body of the inner loop of `New` for one method of one service. -/
def routeFor (service : String) (method : MethodInfo) : Route :=
  let fullMethod := service ++ "/" ++ method.Name
  let httpPath := Join ["/api", fullMethod]
  if method.IsServerStream || method.IsClientStream then
    ⟨httpPath, .streamHandler fullMethod⟩
  else
    ⟨httpPath, .unaryHandler fullMethod⟩

/-- Function `New`: the routes it installs, given the entries of `serv.GetServiceInfo()` in
the order the `range` statement visits them. -/
def New (serviceInfo : List (String × ServiceInfo)) : List Route :=
  serviceInfo.flatMap (fun entry => entry.2.Methods.map (routeFor entry.1))

/-! ## Sample inputs -/

/-- A backend that fails every call with NotFound and the message "induce". -/
def notFoundConn : ClientConn := fun _ _ => .error (.grpc ⟨5, "induce"⟩)

/-- A well-formed unary request with a three-byte body. -/
def goodRequest : Request := ⟨"POST", "application/proto", [1, 2, 3], none⟩

/-- A backend that answers every call by repeating the request bytes twice. -/
def doublingConn : ClientConn := fun _ b => .ok (b ++ b)

/-- A GET request with the wrong content type. -/
def getJsonRequest : Request := ⟨"GET", "application/json", [1, 2, 3], none⟩

/-- A POST request with the wrong content type. -/
def jsonRequest : Request := ⟨"POST", "application/json", [1, 2, 3], none⟩

/-- A POST request whose body cannot be read to the end. -/
def brokenBodyRequest : Request :=
  ⟨"POST", "application/proto", [1], some (.plain "unexpected EOF")⟩

/-- A heap whose byte-slice variables are all nil. -/
def emptyHeap : Heap := fun _ => []

/-- A session whose backend yields three messages and then ends cleanly. -/
def happyEnv : StreamEnv :=
  ⟨none, none, fun _ => none, [[1], [2], [3]], .eof, fun _ => none, none⟩

/-- A session whose backend yields one message and then fails with NotFound. -/
def statusEnv : StreamEnv :=
  ⟨none, none, fun _ => none, [[1]], .grpc ⟨5, "induced"⟩, fun _ => none, none⟩

/-- A session whose WebSocket upgrade fails. -/
def upgradeFailEnv : StreamEnv :=
  ⟨some (.plain "bad handshake"), none, fun _ => none, [], .eof, fun _ => none, none⟩

/-- A session whose backend stream cannot be opened. -/
def newStreamFailEnv : StreamEnv :=
  ⟨none, some (.grpc ⟨14, "unavailable"⟩), fun _ => none, [[1]], .eof, fun _ => none, none⟩

/-- A session whose second binary write fails. -/
def writeFailEnv : StreamEnv :=
  ⟨none, none, fun _ => none, [[1], [2], [3]], .eof,
    fun i => if i = 1 then some (.plain "broken pipe") else none, some (.plain "broken pipe")⟩

/-- The service of the echo example: one unary and one server-streaming method. -/
def echoServiceInfo : List (String × ServiceInfo) :=
  [("echo.v1.Echo", ⟨[⟨"Echo", false, false⟩, ⟨"EchoStream", false, true⟩]⟩)]

/-- A service registered under the name `..`, with one unary method. -/
def dotDotServiceInfo : List (String × ServiceInfo) :=
  [("..", ⟨[⟨"M", false, false⟩]⟩)]

/-- The error `ws.ReadMessage` returns to the pump when the client goes away. -/
def pumpErr : GoError := .plain "websocket: close 1006 (abnormal closure): unexpected EOF"

/-- A session in which the pump has published `pumpErr` before the first loop iteration
(later receives on the closed channel yield nil), while the backend still yields one
message and then ends cleanly. -/
def pumpErrEnv : StreamEnv :=
  ⟨none, none, fun i => if i = 0 then some (some pumpErr) else some none, [[1]], .eof,
    fun _ => none, none⟩

/-- The backend receives of a trace: the number of `cs.RecvMsg` calls. -/
def receives (tr : List Event) : Nat := tr.count .recvMsg

/-- A session whose backend yields one message and then fails with the status code 65537,
a value a `codes.Code` can hold. -/
def wrapEnv : StreamEnv :=
  ⟨none, none, fun _ => none, [[1]], .grpc ⟨65537, "induced"⟩, fun _ => none, none⟩

/-- A session whose backend yields one message and then fails with the status code 1. -/
def canceledEnv : StreamEnv :=
  ⟨none, none, fun _ => none, [[1]], .grpc ⟨1, "induced"⟩, fun _ => none, none⟩

/-! ## Theorems -/

/-- The payload for a code that fits the 2-byte field and is not 1005 holds that code. -/
theorem FormatCloseMessage_of_lt (closeCode : Int) (text : String)
    (h0 : 1005 < closeCode) (h1 : closeCode < 65536) :
    FormatCloseMessage closeCode text = ⟨closeCode, text⟩ := by
  have hne : closeCode ≠ CloseNoStatusReceived := by
    simp only [CloseNoStatusReceived]
    omega
  have hmod : closeCode % 65536 = closeCode := Int.emod_eq_of_lt (by omega) h1
  simp [FormatCloseMessage, hne, hmod]

/-- The close message of a status: the code field holds the low 16 bits of `4000 + c`. -/
theorem grpcStatusToCloseMessage_grpc (s : Status) :
    grpcStatusToCloseMessage (some (.grpc s))
      = ⟨(4000 + (s.code : Int)) % 65536, s.message⟩ := by
  have hne : (4000 + (s.code : Int)) ≠ CloseNoStatusReceived := by
    simp only [CloseNoStatusReceived]
    omega
  simp [grpcStatusToCloseMessage, FromError, FormatCloseMessage, hne]

/-- On every error value whose status code, if it carries one, is below 61536 (so that
`4000 + c` fits in 16 bits), `grpcStatusToCloseMessage` agrees with the reference
definition. -/
theorem grpcStatusToCloseMessage_eq_spec_of_lt (err : Option GoError)
    (h : ∀ s, err = some (.grpc s) → s.code < 61536) :
    grpcStatusToCloseMessage err = closeFrameSpec err := by
  rcases err with _ | e
  · rfl
  · cases e with
    | eof => rfl
    | grpc s =>
      have hs := h s rfl
      have hmod : (4000 + (s.code : Int)) % 65536 = 4000 + (s.code : Int) :=
        Int.emod_eq_of_lt (by omega) (by omega)
      rw [grpcStatusToCloseMessage_grpc, hmod]
      rfl
    | plain t => rfl

/-- C1, at the failing input: for an error carrying the status code 65537 the close frame
has the code 4001, the low 16 bits of 69537, where the reference definition has
`4000 + 65537`; the frame is the one of the status code 1. -/
theorem grpcStatusToCloseMessage_ne_spec :
    grpcStatusToCloseMessage (some (.grpc ⟨65537, "induced"⟩)) = ⟨4001, "induced"⟩ ∧
    closeFrameSpec (some (.grpc ⟨65537, "induced"⟩)) = ⟨69537, "induced"⟩ ∧
    grpcStatusToCloseMessage (some (.grpc ⟨65537, "induced"⟩))
      ≠ closeFrameSpec (some (.grpc ⟨65537, "induced"⟩)) := by
  decide

/-! ### The status bridge on the unary path -/

/-- C2: on the unary error path (the three gates passed and the backend invocation
returned the error `err`), an error carrying a status with code `c` and message `m` is
answered with one `http.Error` whose status is the gRPC-to-HTTP mapping of `c` and whose
message is `m` (NotFound gives 404, PermissionDenied 403, Unavailable 503, Internal 500,
OK 200); an error without a status is answered with 502 and "gateway error". Nothing else
is written to the response. -/
theorem unaryHandler_error_path (cc : ClientConn) (fullMethod : String)
    (copyErr : Option GoError) (req : Request) (err : GoError)
    (hm : req.Method = "POST") (hc : req.contentType = "application/proto")
    (hb : req.bodyErr = none) (hinv : cc fullMethod req.body = .error err) :
    (∀ c m, err = .grpc ⟨c, m⟩ →
      httpErrors (unaryHandler cc fullMethod copyErr req) = [(m, HTTPStatusFromCode c)] ∧
      responseStatus (unaryHandler cc fullMethod copyErr req) = HTTPStatusFromCode c) ∧
    ((∀ s, err ≠ .grpc s) →
      httpErrors (unaryHandler cc fullMethod copyErr req) = [("gateway error", 502)] ∧
      responseStatus (unaryHandler cc fullMethod copyErr req) = 502) ∧
    copied (unaryHandler cc fullMethod copyErr req) = [] ∧
    HTTPStatusFromCode 5 = 404 ∧ HTTPStatusFromCode 7 = 403 ∧ HTTPStatusFromCode 14 = 503 ∧
    HTTPStatusFromCode 13 = 500 ∧ HTTPStatusFromCode 0 = 200 := by
  have htr : unaryHandler cc fullMethod copyErr req =
      if !(FromError (some err)).2 then
        [.bodyClose, .invoke fullMethod req.body, .httpError "gateway error" StatusBadGateway]
      else
        [.bodyClose, .invoke fullMethod req.body,
          .httpError (FromError (some err)).1.message
            (HTTPStatusFromCode (FromError (some err)).1.code)] := by
    simp [unaryHandler, hm, hc, hb, hinv]
  refine ⟨?_, ?_, ?_, rfl, rfl, rfl, rfl, rfl⟩
  · intro c m he
    subst he
    rw [htr]
    exact ⟨rfl, rfl⟩
  · intro hs
    rw [htr]
    cases err with
    | eof => exact ⟨rfl, rfl⟩
    | grpc s => exact absurd rfl (hs s)
    | plain t => exact ⟨rfl, rfl⟩
  · rw [htr]
    cases err <;> rfl

/-- Witness for C2: a backend answering NotFound gives status 404 with the message. -/
theorem unaryHandler_error_path_witness :
    httpErrors (unaryHandler notFoundConn "echo.v1.Echo/Echo" none goodRequest)
      = [("induce", 404)] :=
  ((unaryHandler_error_path notFoundConn "echo.v1.Echo/Echo" none goodRequest
    (.grpc ⟨5, "induce"⟩) (by decide) (by decide) rfl rfl).1 5 "induce" rfl).1

/-! ### The unary forwarder -/

/-- C5: the unary gates, in order. A method other than POST is answered 405 whatever the
content type; otherwise a content type other than `application/proto` is answered 400;
otherwise a failed body read is answered 500; in none of these cases is the backend
invoked. When all three gates pass the backend is invoked exactly once, with the method of
the route and the body read, and the backend is invoked only then. -/
theorem unaryHandler_gates (cc : ClientConn) (fullMethod : String)
    (copyErr : Option GoError) (req : Request) :
    (req.Method ≠ "POST" →
      unaryHandler cc fullMethod copyErr req = [.httpError "" 405] ∧
      responseStatus (unaryHandler cc fullMethod copyErr req) = 405 ∧
      invocations (unaryHandler cc fullMethod copyErr req) = []) ∧
    (req.Method = "POST" → req.contentType ≠ "application/proto" →
      unaryHandler cc fullMethod copyErr req = [.httpError "" 400] ∧
      responseStatus (unaryHandler cc fullMethod copyErr req) = 400 ∧
      invocations (unaryHandler cc fullMethod copyErr req) = []) ∧
    (req.Method = "POST" → req.contentType = "application/proto" → req.bodyErr ≠ none →
      httpErrors (unaryHandler cc fullMethod copyErr req) = [("", 500)] ∧
      responseStatus (unaryHandler cc fullMethod copyErr req) = 500 ∧
      invocations (unaryHandler cc fullMethod copyErr req) = []) ∧
    (req.Method = "POST" → req.contentType = "application/proto" → req.bodyErr = none →
      invocations (unaryHandler cc fullMethod copyErr req) = [(fullMethod, req.body)]) ∧
    (invocations (unaryHandler cc fullMethod copyErr req) ≠ [] →
      req.Method = "POST" ∧ req.contentType = "application/proto" ∧ req.bodyErr = none) := by
  have h1 : req.Method ≠ "POST" →
      unaryHandler cc fullMethod copyErr req = [.httpError "" 405] := by
    intro hm
    simp [unaryHandler, hm, StatusMethodNotAllowed]
  have h2 : req.Method = "POST" → req.contentType ≠ "application/proto" →
      unaryHandler cc fullMethod copyErr req = [.httpError "" 400] := by
    intro hm hc
    simp [unaryHandler, hm, hc, StatusBadRequest]
  have h3 : req.Method = "POST" → req.contentType = "application/proto" →
      req.bodyErr ≠ none →
      unaryHandler cc fullMethod copyErr req =
        [.bodyClose, .log "Failed to ready request body", .httpError "" 500] := by
    intro hm hc hb
    obtain ⟨e, he⟩ := Option.ne_none_iff_exists.mp hb
    simp [unaryHandler, hm, hc, ← he, StatusInternalServerError]
  have h4 : req.Method = "POST" → req.contentType = "application/proto" →
      req.bodyErr = none →
      invocations (unaryHandler cc fullMethod copyErr req) = [(fullMethod, req.body)] := by
    intro hm hc hb
    simp only [unaryHandler, hm, hc, hb, ne_eq, not_true_eq_false, ite_false]
    cases cc fullMethod req.body with
    | error err => cases err <;> rfl
    | ok resp => cases copyErr <;> rfl
  refine ⟨fun hm => ?_, fun hm hc => ?_, fun hm hc hb => ?_, h4, fun hne => ?_⟩
  · rw [h1 hm]; exact ⟨rfl, rfl, rfl⟩
  · rw [h2 hm hc]; exact ⟨rfl, rfl, rfl⟩
  · rw [h3 hm hc hb]; exact ⟨rfl, rfl, rfl⟩
  · by_cases hm : req.Method = "POST"
    · by_cases hc : req.contentType = "application/proto"
      · by_cases hb : req.bodyErr = none
        · exact ⟨hm, hc, hb⟩
        · rw [h3 hm hc hb] at hne; exact absurd rfl hne
      · rw [h2 hm hc] at hne; exact absurd rfl hne
    · rw [h1 hm] at hne; exact absurd rfl hne

/-- Witness for C5: a GET with a wrong content type is answered 405, a POST with a wrong
content type 400, a POST whose body read fails 500, and a good POST reaches the backend. -/
theorem unaryHandler_gates_witness :
    responseStatus (unaryHandler doublingConn "echo.v1.Echo/Echo" none getJsonRequest) = 405 ∧
    responseStatus (unaryHandler doublingConn "echo.v1.Echo/Echo" none jsonRequest) = 400 ∧
    responseStatus (unaryHandler doublingConn "echo.v1.Echo/Echo" none brokenBodyRequest)
      = 500 ∧
    invocations (unaryHandler doublingConn "echo.v1.Echo/Echo" none goodRequest)
      = [("echo.v1.Echo/Echo", [1, 2, 3])] :=
  ⟨((unaryHandler_gates doublingConn "echo.v1.Echo/Echo" none getJsonRequest).1
      (by decide)).2.1,
   ((unaryHandler_gates doublingConn "echo.v1.Echo/Echo" none jsonRequest).2.1
      (by decide) (by decide)).2.1,
   ((unaryHandler_gates doublingConn "echo.v1.Echo/Echo" none brokenBodyRequest).2.2.1
      (by decide) (by decide) (by decide)).2.1,
   (unaryHandler_gates doublingConn "echo.v1.Echo/Echo" none goodRequest).2.2.2.1
      (by decide) (by decide) rfl⟩

/-- C6: the unary success path. A POST with content type `application/proto` whose body `x`
is read without error causes exactly one backend invocation, of the method of the route
and with payload `x`; when it succeeds with reply `y` (empty or not) no `http.Error` is
issued, so the status is 200, and the bytes copied to the response writer are exactly `y`,
whether or not the copy reports a short write. -/
theorem unaryHandler_success (cc : ClientConn) (fullMethod : String)
    (copyErr : Option GoError) (req : Request) (y : Bytes)
    (hm : req.Method = "POST") (hc : req.contentType = "application/proto")
    (hb : req.bodyErr = none) (hinv : cc fullMethod req.body = .ok y) :
    invocations (unaryHandler cc fullMethod copyErr req) = [(fullMethod, req.body)] ∧
    httpErrors (unaryHandler cc fullMethod copyErr req) = [] ∧
    responseStatus (unaryHandler cc fullMethod copyErr req) = 200 ∧
    copied (unaryHandler cc fullMethod copyErr req) = [y] := by
  have htr : unaryHandler cc fullMethod copyErr req =
      match copyErr with
      | some _ =>
        [.bodyClose, .invoke fullMethod req.body, .copy y, .log "Failed to send response"]
      | none => [.bodyClose, .invoke fullMethod req.body, .copy y] := by
    simp [unaryHandler, hm, hc, hb, hinv]
  rw [htr]
  cases copyErr <;> exact ⟨rfl, rfl, rfl, rfl⟩

/-- Witness for C6: the doubling backend, asked with three bytes, has its six-byte reply
copied to the response unchanged. -/
theorem unaryHandler_success_witness :
    copied (unaryHandler doublingConn "echo.v1.Echo/Echo" none goodRequest)
      = [[1, 2, 3, 1, 2, 3]] :=
  (unaryHandler_success doublingConn "echo.v1.Echo/Echo" none goodRequest [1, 2, 3, 1, 2, 3]
    (by decide) (by decide) rfl rfl).2.2.2

/-! ### The codec -/

/-- C3: codec round trip. Marshalling a byte buffer succeeds and returns it; unmarshalling
into a byte-buffer slot succeeds and leaves the slot holding the buffer (other slots are
untouched); so marshal-then-unmarshal and unmarshal-then-marshal both yield the buffer. -/
theorem codec_round_trip (b : Bytes) (sink : Nat) (h : Heap) :
    BinaryCodec.Marshal (.bytes b) = (b, none) ∧
    (BinaryCodec.Unmarshal b (.bytesPtr (some sink)) h).2 = .ok ∧
    (BinaryCodec.Unmarshal b (.bytesPtr (some sink)) h).1 sink = b ∧
    (∀ q, q ≠ sink → (BinaryCodec.Unmarshal b (.bytesPtr (some sink)) h).1 q = h q) ∧
    (BinaryCodec.Unmarshal (BinaryCodec.Marshal (.bytes b)).1 (.bytesPtr (some sink)) h).1 sink
      = b ∧
    BinaryCodec.Marshal (.bytes ((BinaryCodec.Unmarshal b (.bytesPtr (some sink)) h).1 sink))
      = (b, none) := by
  refine ⟨rfl, rfl, ?_, ?_, ?_, ?_⟩
  · simp [BinaryCodec.Unmarshal]
  · intro q hq
    simp [BinaryCodec.Unmarshal, Function.update_noteq hq]
  · simp [BinaryCodec.Unmarshal, BinaryCodec.Marshal]
  · simp [BinaryCodec.Unmarshal, BinaryCodec.Marshal]

/-- C4, as stated, fails: a nil `*[]byte` is not a writable pointer to a byte buffer, yet
`Unmarshal` does not return an error for it; the type assertion accepts it and the store
through it panics. -/
theorem Unmarshal_nil_pointer_no_error :
    (∀ v, GoValue.bytesPtr none ≠ GoValue.bytesPtr (some v)) ∧
    (BinaryCodec.Unmarshal [1, 2, 3] (.bytesPtr none) emptyHeap).2 = .panic ∧
    ¬ ((∃ e, (BinaryCodec.Unmarshal [1, 2, 3] (.bytesPtr none) emptyHeap).2 = .error e) ↔
        ∀ v, GoValue.bytesPtr none ≠ GoValue.bytesPtr (some v)) := by
  refine ⟨fun v h => ?_, rfl, fun hiff => ?_⟩
  · cases h
  · obtain ⟨e, he⟩ := hiff.mpr (fun v h => by cases h)
    cases he

/-- C4, amended: codec type errors. `Marshal` returns an error exactly when the value is
not a byte buffer (a string, for one), and then returns no bytes. `Unmarshal` returns an
error exactly when the sink is not of the type `*[]byte` (a string sink and a bare
byte-slice sink are both rejected); it succeeds exactly when the sink is a non-nil
`*[]byte`; for a nil `*[]byte` it returns no error and the store panics. Whenever
`Unmarshal` does not succeed, nothing is written. -/
theorem codec_type_errors (value sink : GoValue) (data : Bytes) (h : Heap) :
    ((BinaryCodec.Marshal value).2 ≠ none ↔ ∀ b, value ≠ .bytes b) ∧
    ((BinaryCodec.Marshal value).2 ≠ none → (BinaryCodec.Marshal value).1 = []) ∧
    ((∃ e, (BinaryCodec.Unmarshal data sink h).2 = .error e) ↔ ∀ p, sink ≠ .bytesPtr p) ∧
    ((BinaryCodec.Unmarshal data sink h).2 = .ok ↔ ∃ v, sink = .bytesPtr (some v)) ∧
    ((BinaryCodec.Unmarshal data sink h).2 = .panic ↔ sink = .bytesPtr none) ∧
    ((BinaryCodec.Unmarshal data sink h).2 ≠ .ok → (BinaryCodec.Unmarshal data sink h).1 = h) ∧
    (∀ s, ∃ e, BinaryCodec.Unmarshal data (.str s) h = (h, .error e)) ∧
    (∀ b, ∃ e, BinaryCodec.Unmarshal data (.bytes b) h = (h, .error e)) ∧
    (∀ s, ∃ e, BinaryCodec.Marshal (.str s) = ([], some e)) := by
  refine ⟨?_, ?_, ?_, ?_, ?_, ?_, fun _ => ⟨_, rfl⟩, fun _ => ⟨_, rfl⟩, fun _ => ⟨_, rfl⟩⟩
  · cases value <;> simp [BinaryCodec.Marshal]
  · cases value <;> simp [BinaryCodec.Marshal]
  · rcases sink with _ | _ | p | _ | _
    · simp [BinaryCodec.Unmarshal]
    · simp [BinaryCodec.Unmarshal]
    · cases p <;> simp [BinaryCodec.Unmarshal]
    · simp [BinaryCodec.Unmarshal]
    · simp [BinaryCodec.Unmarshal]
  · rcases sink with _ | _ | p | _ | _
    · simp [BinaryCodec.Unmarshal]
    · simp [BinaryCodec.Unmarshal]
    · cases p <;> simp [BinaryCodec.Unmarshal]
    · simp [BinaryCodec.Unmarshal]
    · simp [BinaryCodec.Unmarshal]
  · rcases sink with _ | _ | p | _ | _
    · simp [BinaryCodec.Unmarshal]
    · simp [BinaryCodec.Unmarshal]
    · cases p <;> simp [BinaryCodec.Unmarshal]
    · simp [BinaryCodec.Unmarshal]
    · simp [BinaryCodec.Unmarshal]
  · rcases sink with _ | _ | p | _ | _
    · simp [BinaryCodec.Unmarshal]
    · simp [BinaryCodec.Unmarshal]
    · cases p <;> simp [BinaryCodec.Unmarshal]
    · simp [BinaryCodec.Unmarshal]
    · simp [BinaryCodec.Unmarshal]

/-- Witness for C4: unmarshalling into a bare byte slice does not succeed and leaves the
heap alone, and marshalling a string returns an error and no bytes. -/
theorem codec_type_errors_witness :
    (BinaryCodec.Unmarshal [1, 2, 3] (.bytes []) emptyHeap).1 = emptyHeap ∧
    (BinaryCodec.Marshal (.str "")).1 = [] :=
  ⟨(codec_type_errors (.str "") (.bytes []) [1, 2, 3] emptyHeap).2.2.2.2.2.1 (by decide),
   (codec_type_errors (.str "") (.bytes []) [1, 2, 3] emptyHeap).2.1 (by decide)⟩

/-! ### The stream forwarder -/

theorem frames_append (a b : List Event) : frames (a ++ b) = frames a ++ frames b := by
  induction a with
  | nil => rfl
  | cons e t ih => cases e <;> simp [frames, ih]

theorem filterMap_asClose_binary (l : List Bytes) :
    (l.map Frame.binary).filterMap Frame.asClose = [] := by
  induction l with
  | nil => rfl
  | cons b t ih => simp [Frame.asClose, ih]

theorem selectReadErr_trace (poll : Option (Option GoError)) (st : LoopState) :
    (selectReadErr poll st).trace = st.trace := by
  cases poll <;> rfl

/-- The loop only appends to the trace, and what it appends holds, as frames, a prefix of
the pending backend messages as binary frames; it appends no deferred call and starts no
pump. -/
theorem streamLoop_trace (env : StreamEnv) (pending : List Bytes) :
    ∀ (i : Nat) (st : LoopState), ∃ (k : Nat) (evs : List Event),
      k ≤ pending.length ∧
      (streamLoop env i pending st).trace = st.trace ++ evs ∧
      frames evs = (pending.take k).map Frame.binary ∧
      evs.count Event.wsClose = 0 ∧ evs.count Event.startPump = 0 := by
  induction pending with
  | nil =>
    intro i st
    refine ⟨0, [.recvMsg], le_refl _, ?_, rfl, rfl, rfl⟩
    simp [streamLoop, selectReadErr_trace]
  | cons m rest ih =>
    intro i st
    cases hw : env.writeErrs i with
    | some e =>
      refine ⟨1, [.recvMsg, .writeBinary m], by simp, ?_, rfl, rfl, rfl⟩
      simp [streamLoop, hw, selectReadErr_trace]
    | none =>
      obtain ⟨k, evs, hk, htr, hfr, hc1, hc2⟩ := ih (i + 1)
        { err := none, respBytes := m,
          trace := (selectReadErr (env.polls i) st).trace ++ [.recvMsg] ++ [.writeBinary m] }
      refine ⟨k + 1, [.recvMsg, .writeBinary m] ++ evs, by simpa using hk, ?_, ?_, ?_, ?_⟩
      · simp only [streamLoop, hw]
        rw [htr]
        simp [selectReadErr_trace]
      · rw [frames_append, hfr]
        rfl
      · rw [List.count_append, hc1]
        rfl
      · rw [List.count_append, hc2]
        rfl

/-- When every binary write succeeds, the loop is left with the error of the backend
receive, whatever the pump reported, and every pending message has been written. -/
theorem streamLoop_writes_ok (env : StreamEnv) (hw : ∀ i, env.writeErrs i = none)
    (pending : List Bytes) :
    ∀ (i : Nat) (st : LoopState),
      (streamLoop env i pending st).err = some env.recvErr ∧
      frames (streamLoop env i pending st).trace
        = frames st.trace ++ pending.map Frame.binary := by
  induction pending with
  | nil =>
    intro i st
    simp [streamLoop, selectReadErr_trace, frames_append, frames]
  | cons m rest ih =>
    intro i st
    obtain ⟨h1, h2⟩ := ih (i + 1)
      { err := none, respBytes := m,
        trace := (selectReadErr (env.polls i) st).trace ++ [.recvMsg] ++ [.writeBinary m] }
    simp only [streamLoop, hw]
    refine ⟨h1, ?_⟩
    rw [h2]
    simp [selectReadErr_trace, frames_append, frames]

/-- Backend-to-outbound forwarding. In a session (upgrade and backend stream opened) whose
backend yields the messages `recvs` and then the error `recvErr`, and whose binary writes
all succeed, the handler writes exactly the messages `recvs` as binary frames, in order,
and then exactly one close frame, `grpcStatusToCloseMessage recvErr`: code 1000 for
end-of-stream, and the low 16 bits of `4000 + c` for a status with code `c`, which is
`4000 + c` when `c` is below 61536. This holds whatever the inbound pump reports. -/
theorem streamHandler_forwarding (fullMethod : String) (env : StreamEnv)
    (hup : env.upgradeErr = none) (hns : env.newStreamErr = none)
    (hw : ∀ i, env.writeErrs i = none) :
    frames (streamHandler fullMethod env)
      = env.recvs.map Frame.binary
        ++ [Frame.close (grpcStatusToCloseMessage (some env.recvErr))] ∧
    (env.recvErr = .eof →
      grpcStatusToCloseMessage (some env.recvErr) = ⟨1000, ""⟩) ∧
    (∀ c m, env.recvErr = .grpc ⟨c, m⟩ →
      grpcStatusToCloseMessage (some env.recvErr) = ⟨(4000 + (c : Int)) % 65536, m⟩) ∧
    (∀ c m, env.recvErr = .grpc ⟨c, m⟩ → c < 61536 →
      grpcStatusToCloseMessage (some env.recvErr) = ⟨4000 + (c : Int), m⟩) := by
  refine ⟨?_, ?_, ?_, ?_⟩
  · obtain ⟨h1, h2⟩ := streamLoop_writes_ok env hw env.recvs 0
      ⟨none, [], [.newStream fullMethod, .startPump]⟩
    simp only [streamHandler, hup, hns]
    rw [frames_append, frames_append, frames_append, h1, h2]
    cases env.closeWriteErr <;> simp [frames]
  · intro h
    rw [h]
    rfl
  · intro c m h
    rw [h, grpcStatusToCloseMessage_grpc]
  · intro c m h hc
    have hmod : (4000 + (c : Int)) % 65536 = 4000 + (c : Int) :=
      Int.emod_eq_of_lt (by omega) (by omega)
    rw [h, grpcStatusToCloseMessage_grpc, hmod]

/-- Forwarding at two sessions: three backend messages and a clean end give three binary
frames and the close frame 1000; one message and then NotFound give one binary frame and
the close frame 4005. -/
theorem streamHandler_forwarding_examples :
    frames (streamHandler "echo.v1.Echo/EchoStream" happyEnv)
      = [.binary [1], .binary [2], .binary [3], .close ⟨1000, ""⟩] ∧
    frames (streamHandler "echo.v1.Echo/EchoStream" statusEnv)
      = [.binary [1], .close ⟨4005, "induced"⟩] :=
  ⟨(streamHandler_forwarding "echo.v1.Echo/EchoStream" happyEnv rfl rfl (fun _ => rfl)).1,
   (streamHandler_forwarding "echo.v1.Echo/EchoStream" statusEnv rfl rfl (fun _ => rfl)).1⟩

/-- C7, at the failing input: the backend yields one message and then fails with the
status code 65537, and every write succeeds. The handler writes the one binary frame and
then one close frame, as claimed, but the close frame has the code 4001, not
`4000 + 65537`: the frames are those of a session that fails with the status code 1. -/
theorem streamHandler_close_code_wraps :
    wrapEnv.recvErr = .grpc ⟨65537, "induced"⟩ ∧
    frames (streamHandler "echo.v1.Echo/EchoStream" wrapEnv)
      = [.binary [1], .close ⟨4001, "induced"⟩] ∧
    closeFrames (streamHandler "echo.v1.Echo/EchoStream" wrapEnv)
      ≠ [⟨4000 + 65537, "induced"⟩] ∧
    frames (streamHandler "echo.v1.Echo/EchoStream" wrapEnv)
      = frames (streamHandler "echo.v1.Echo/EchoStream" canceledEnv) := by
  decide

/-- C10: close frames per session. If the upgrade fails, no frame is written and the
connection is not closed by the handler. If the upgrade succeeds and opening the backend
stream fails, the only frame written is one close frame with code 1011 and no pump is
started. If both succeed, then on leaving the loop (by a backend receive error, by
end-of-stream or by a write error) the frames written are binary frames for a prefix of the
backend messages followed by exactly one close frame, the last frame. After a successful
upgrade the connection is closed exactly once. -/
theorem streamHandler_close_frames (fullMethod : String) (env : StreamEnv) :
    (env.upgradeErr ≠ none →
      frames (streamHandler fullMethod env) = [] ∧
      closeFrames (streamHandler fullMethod env) = [] ∧
      (streamHandler fullMethod env).count .wsClose = 0) ∧
    (env.upgradeErr = none → env.newStreamErr ≠ none →
      frames (streamHandler fullMethod env) = [.close ⟨1011, ""⟩] ∧
      closeFrames (streamHandler fullMethod env) = [⟨1011, ""⟩] ∧
      (streamHandler fullMethod env).count .startPump = 0) ∧
    (env.upgradeErr = none → env.newStreamErr = none →
      ∃ (k : Nat) (c : CloseMessage), k ≤ env.recvs.length ∧
        frames (streamHandler fullMethod env)
          = (env.recvs.take k).map Frame.binary ++ [.close c] ∧
        closeFrames (streamHandler fullMethod env) = [c] ∧
        (streamHandler fullMethod env).count .startPump = 1) ∧
    (env.upgradeErr = none → (streamHandler fullMethod env).count .wsClose = 1) := by
  have hfail : env.upgradeErr = none → env.newStreamErr ≠ none →
      streamHandler fullMethod env =
        [.newStream fullMethod, .log "Failed to initialize grpc stream",
          .writeClose ⟨1011, ""⟩]
        ++ (match env.closeWriteErr with
            | some _ => [.log "Failed to write close message"]
            | none => [])
        ++ [.cancel, .wsClose] := by
    intro hup hns
    obtain ⟨e, he⟩ := Option.ne_none_iff_exists.mp hns
    simp only [streamHandler, hup, ← he]
    rfl
  have hrun : env.upgradeErr = none → env.newStreamErr = none →
      ∃ (k : Nat) (evs : List Event) (c : CloseMessage), k ≤ env.recvs.length ∧
        frames evs = (env.recvs.take k).map Frame.binary ∧
        evs.count Event.wsClose = 0 ∧ evs.count Event.startPump = 0 ∧
        streamHandler fullMethod env =
          [.newStream fullMethod, .startPump] ++ evs ++ [.writeClose c]
          ++ (match env.closeWriteErr with
              | some _ => [.log "Failed to write error status"]
              | none => [])
          ++ [.cancel, .wsClose] := by
    intro hup hns
    obtain ⟨k, evs, hk, htr, hfr, hc1, hc2⟩ := streamLoop_trace env env.recvs 0
      ⟨none, [], [.newStream fullMethod, .startPump]⟩
    refine ⟨k, evs, grpcStatusToCloseMessage (streamLoop env 0 env.recvs
      ⟨none, [], [.newStream fullMethod, .startPump]⟩).err, hk, hfr, hc1, hc2, ?_⟩
    simp only [streamHandler, hup, hns]
    rw [htr]
  refine ⟨fun hup => ?_, fun hup hns => ?_, fun hup hns => ?_, fun hup => ?_⟩
  · obtain ⟨e, he⟩ := Option.ne_none_iff_exists.mp hup
    have : streamHandler fullMethod env = [.log "Failed to upgrade connection"] := by
      simp only [streamHandler, ← he]
    rw [this]
    exact ⟨rfl, rfl, rfl⟩
  · rw [hfail hup hns]
    cases env.closeWriteErr <;> exact ⟨rfl, rfl, rfl⟩
  · obtain ⟨k, evs, c, hk, hfr, _, hc2, htr⟩ := hrun hup hns
    refine ⟨k, c, hk, ?_, ?_, ?_⟩
    · rw [htr]
      simp only [frames_append, hfr]
      cases env.closeWriteErr <;> simp [frames]
    · rw [closeFrames, htr]
      simp only [frames_append, hfr, List.filterMap_append, filterMap_asClose_binary]
      cases env.closeWriteErr <;> rfl
    · rw [htr]
      simp only [List.count_append, hc2]
      cases env.closeWriteErr <;> rfl
  · by_cases hns : env.newStreamErr = none
    · obtain ⟨k, evs, c, _, _, hc1, _, htr⟩ := hrun hup hns
      rw [htr]
      simp only [List.count_append, hc1]
      cases env.closeWriteErr <;> rfl
    · rw [hfail hup hns]
      cases env.closeWriteErr <;> rfl

/-- Witness for C10: a failed upgrade writes nothing; a failed stream opening writes the
single close frame 1011; a session whose second write fails writes two binary frames and
then one close frame, and closes the connection once. -/
theorem streamHandler_close_frames_witness :
    frames (streamHandler "echo.v1.Echo/EchoStream" upgradeFailEnv) = [] ∧
    frames (streamHandler "echo.v1.Echo/EchoStream" newStreamFailEnv)
      = [.close ⟨1011, ""⟩] ∧
    (∃ (k : Nat) (c : CloseMessage), k ≤ writeFailEnv.recvs.length ∧
      frames (streamHandler "echo.v1.Echo/EchoStream" writeFailEnv)
        = (writeFailEnv.recvs.take k).map Frame.binary ++ [.close c] ∧
      closeFrames (streamHandler "echo.v1.Echo/EchoStream" writeFailEnv) = [c] ∧
      (streamHandler "echo.v1.Echo/EchoStream" writeFailEnv).count .startPump = 1) ∧
    (streamHandler "echo.v1.Echo/EchoStream" writeFailEnv).count .wsClose = 1 :=
  ⟨((streamHandler_close_frames "echo.v1.Echo/EchoStream" upgradeFailEnv).1
      (by decide)).1,
   ((streamHandler_close_frames "echo.v1.Echo/EchoStream" newStreamFailEnv).2.1
      rfl (by decide)).1,
   (streamHandler_close_frames "echo.v1.Echo/EchoStream" writeFailEnv).2.2.1 rfl rfl,
   (streamHandler_close_frames "echo.v1.Echo/EchoStream" writeFailEnv).2.2.2 rfl⟩

/-! ### The private range of close codes -/

/-- C9, at the failing input: a status with code 1000 (a value a `codes.Code` can hold, and
one a backend can send) yields the close code 5000, above the private range 4000 to 4999. -/
theorem grpcStatusToCloseMessage_above_private_range :
    grpcStatusToCloseMessage (some (.grpc ⟨1000, "induced"⟩)) = ⟨5000, "induced"⟩ ∧
    ¬ ((grpcStatusToCloseMessage (some (.grpc ⟨1000, "induced"⟩))).closeCode ≤ 4999) := by
  decide

/-- The close code of a status lies in the private range exactly when the low 16 bits of
the status code are at most 999; this covers the defined gRPC codes, 0 to 16. -/
theorem grpcStatusToCloseMessage_private_range_iff (s : Status) :
    (4000 ≤ (grpcStatusToCloseMessage (some (.grpc s))).closeCode ∧
      (grpcStatusToCloseMessage (some (.grpc s))).closeCode ≤ 4999) ↔
    s.code % 65536 ≤ 999 := by
  rw [grpcStatusToCloseMessage_grpc]
  simp only
  omega

/-! ### The route table -/

theorem cleanElems_plain (rooted : Bool) (es : List (List Char)) :
    ∀ acc : List (List Char), (∀ e ∈ es, plainElem e) →
      cleanElems rooted es acc = es.reverse ++ acc := by
  induction es with
  | nil => intro acc _; rfl
  | cons e t ih =>
    intro acc h
    obtain ⟨h1, h2, h3⟩ := h e (List.mem_cons_self _ _)
    have ht := ih (e :: acc) (fun x hx => h x (List.mem_cons_of_mem _ hx))
    simp [cleanElems, h1, h2, h3, ht]

theorem intercalate_cons_cons (sep x y : List Char) (l : List (List Char)) :
    sep.intercalate (x :: y :: l) = x ++ sep ++ sep.intercalate (y :: l) := by
  simp [List.intercalate]

/-- A rooted path under `/api` whose further elements are all plain is already clean. -/
theorem Clean_api (t : List Char) (h : ∀ e ∈ t.splitOn '/', plainElem e) :
    Clean ('/' :: 'a' :: 'p' :: 'i' :: '/' :: t) = '/' :: 'a' :: 'p' :: 'i' :: '/' :: t := by
  have hsplit : ('/' :: 'a' :: 'p' :: 'i' :: '/' :: t).splitOn '/'
      = [] :: ['a', 'p', 'i'] :: t.splitOn '/' := by
    have h1 := List.splitOnP_first (fun c => c == '/') ['a', 'p', 'i'] (by decide) '/' rfl t
    simp only [List.splitOn, List.splitOnP_cons, beq_self_eq_true, if_true]
    exact congrArg _ h1
  have hkept : cleanElems true ([] :: ['a', 'p', 'i'] :: t.splitOn '/') []
      = (t.splitOn '/').reverse ++ [['a', 'p', 'i']] := by
    have h2 := cleanElems_plain true (t.splitOn '/') [['a', 'p', 'i']] h
    simp [cleanElems, h2]
  obtain ⟨hd, tl, hcons⟩ : ∃ hd tl, t.splitOn '/' = hd :: tl := by
    cases hc : t.splitOn '/' with
    | nil => exact absurd hc (List.splitOnP_ne_nil _ _)
    | cons hd tl => exact ⟨hd, tl, rfl⟩
  have hint : ['/'].intercalate (['a', 'p', 'i'] :: t.splitOn '/')
      = 'a' :: 'p' :: 'i' :: '/' :: t := by
    have h3 := List.intercalate_splitOn t '/'
    rw [hcons] at h3 ⊢
    rw [intercalate_cons_cons, h3]
    rfl
  have hroot : decide (('/' :: 'a' :: 'p' :: 'i' :: '/' :: t).head? = some '/') = true := by
    simp
  simp only [Clean, hroot, hsplit, hkept, List.reverse_append, List.reverse_reverse,
    List.reverse_cons, List.reverse_nil, List.nil_append, List.singleton_append, hint]
  simp

/-- Joining `/api` with a name whose slash-separated elements are all plain prefixes the
name with `/api/`. -/
theorem Join_api (t : String) (h : ∀ e ∈ t.data.splitOn '/', plainElem e) :
    Join ["/api", t] = "/api/" ++ t := by
  have hdrop : (List.map String.data ["/api", t]).dropWhile (fun e => e = [])
      = [['/', 'a', 'p', 'i'], t.data] := by
    simp [List.dropWhile]
  have hj : ['/'].intercalate [['/', 'a', 'p', 'i'], t.data]
      = '/' :: 'a' :: 'p' :: 'i' :: '/' :: t.data := by
    simp [List.intercalate]
  rw [Join, hdrop]
  simp only [hj, Clean_api t.data h]
  apply String.ext
  simp

theorem routeFor_mem_New (serviceInfo : List (String × ServiceInfo)) (s : String)
    (info : ServiceInfo) (method : MethodInfo)
    (hs : (s, info) ∈ serviceInfo) (hmeth : method ∈ info.Methods) :
    routeFor s method ∈ New serviceInfo := by
  simp only [New, List.mem_flatMap, List.mem_map]
  exact ⟨(s, info), hs, method, hmeth, rfl⟩

/-- C8, as stated, fails: for a service registered as `..` with a method `M`, the only
route installed is at `/M`, and none is at `/api/../M`. -/
theorem New_path_not_concatenation :
    New dotDotServiceInfo = [⟨"/M", .unaryHandler "../M"⟩] ∧
    ¬ ∃ r ∈ New dotDotServiceInfo, r.httpPath = "/api/" ++ ".." ++ "/" ++ "M" := by
  decide

/-- C8, amended: for every service `s` and method `n` reported by the backend, `New`
installs a route at `path.Join("/api", s/n)`, handled by the stream forwarder for `s/n` when
the client-streaming or the server-streaming flag is set and by the unary forwarder for
`s/n` otherwise; that path is exactly `/api/` followed by `s`, `/` and `n` whenever no
slash-separated element of `s/n` is empty, `.` or `..`. -/
theorem New_routes (serviceInfo : List (String × ServiceInfo)) (s : String)
    (info : ServiceInfo) (method : MethodInfo)
    (hs : (s, info) ∈ serviceInfo) (hmeth : method ∈ info.Methods) :
    (⟨Join ["/api", s ++ "/" ++ method.Name],
      if method.IsClientStream || method.IsServerStream
      then .streamHandler (s ++ "/" ++ method.Name)
      else .unaryHandler (s ++ "/" ++ method.Name)⟩ : Route) ∈ New serviceInfo ∧
    ((∀ e ∈ (s ++ "/" ++ method.Name).data.splitOn '/', plainElem e) →
      Join ["/api", s ++ "/" ++ method.Name] = "/api/" ++ s ++ "/" ++ method.Name) := by
  refine ⟨?_, fun h => ?_⟩
  · have hmem := routeFor_mem_New serviceInfo s info method hs hmeth
    have hr : routeFor s method = (⟨Join ["/api", s ++ "/" ++ method.Name],
        if method.IsClientStream || method.IsServerStream
        then .streamHandler (s ++ "/" ++ method.Name)
        else .unaryHandler (s ++ "/" ++ method.Name)⟩ : Route) := by
      unfold routeFor
      cases method.IsClientStream <;> cases method.IsServerStream <;> rfl
    rw [← hr]
    exact hmem
  · rw [Join_api _ h]
    simp [String.append_assoc]

/-- Witness for C8: the streaming method of the echo service is routed at
`/api/echo.v1.Echo/EchoStream` to the stream forwarder. -/
theorem New_routes_witness :
    (⟨Join ["/api", "echo.v1.Echo" ++ "/" ++ "EchoStream"],
      .streamHandler "echo.v1.Echo/EchoStream"⟩ : Route) ∈ New echoServiceInfo ∧
    Join ["/api", "echo.v1.Echo" ++ "/" ++ "EchoStream"] = "/api/echo.v1.Echo/EchoStream" :=
  ⟨(New_routes echoServiceInfo "echo.v1.Echo"
      ⟨[⟨"Echo", false, false⟩, ⟨"EchoStream", false, true⟩]⟩ ⟨"EchoStream", false, true⟩
      (by decide) (by decide)).1,
   (New_routes echoServiceInfo "echo.v1.Echo"
      ⟨[⟨"Echo", false, false⟩, ⟨"EchoStream", false, true⟩]⟩ ⟨"EchoStream", false, true⟩
      (by decide) (by decide)).2 (by decide)⟩

/-! ### The pump's error channel -/

/-- The state in which the loop is left does not depend on what the `select` finds on the
pump's error channel: the value it assigns to `err` is overwritten by the next receive. -/
theorem streamLoop_polls_irrelevant (env : StreamEnv)
    (polls2 : Nat → Option (Option GoError)) (pending : List Bytes) :
    ∀ (i : Nat) (st : LoopState),
      streamLoop env i pending st = streamLoop { env with polls := polls2 } i pending st := by
  induction pending with
  | nil =>
    intro i st
    simp only [streamLoop]
    cases env.polls i <;> cases polls2 i <;> rfl
  | cons m rest ih =>
    intro i st
    simp only [streamLoop, selectReadErr_trace]
    cases env.writeErrs i with
    | some e => rfl
    | none => exact ih (i + 1) _

/-- The trace of the stream handler is the same whatever the pump reports. -/
theorem streamHandler_polls_irrelevant (fullMethod : String) (env : StreamEnv)
    (polls2 : Nat → Option (Option GoError)) :
    streamHandler fullMethod env = streamHandler fullMethod { env with polls := polls2 } := by
  simp only [streamHandler]
  rw [streamLoop_polls_irrelevant env polls2 env.recvs 0]

/-- C11, at the failing input: the pump has reported `pumpErr` when the first iteration
starts, yet the handler performs two more backend receives, forwards the message received,
and closes with 1000, the frame of the backend's end-of-stream, not with 1011, the frame
derived from `pumpErr`. -/
theorem streamHandler_pump_error_not_propagated :
    pumpErrEnv.polls 0 = some (some pumpErr) ∧
    streamHandler "echo.v1.Echo/EchoStream" pumpErrEnv =
      [.newStream "echo.v1.Echo/EchoStream", .startPump, .recvMsg, .writeBinary [1],
        .recvMsg, .writeClose ⟨1000, ""⟩, .cancel, .wsClose] ∧
    receives (streamHandler "echo.v1.Echo/EchoStream" pumpErrEnv) = 2 ∧
    grpcStatusToCloseMessage (some pumpErr) = ⟨1011, ""⟩ ∧
    closeFrames (streamHandler "echo.v1.Echo/EchoStream" pumpErrEnv)
      ≠ [grpcStatusToCloseMessage (some pumpErr)] := by
  decide

/-! ### Status fidelity of the close code -/

/-- Over errors that carry a recognizable status with a code below 61536, the close code
determines the status code. Two such errors with different status codes get different close
codes; the status code is the close code minus 4000; and the close code is neither 1000 nor
1011, so it differs from the close code of a nil error, of `io.EOF` and of every error
without a recognizable status. -/
theorem closeCode_status_fidelity_of_lt (e1 e2 : GoError)
    (h1 : (FromError (some e1)).2 = true) (h2 : (FromError (some e2)).2 = true)
    (hc1 : (FromError (some e1)).1.code < 61536)
    (hc2 : (FromError (some e2)).1.code < 61536) :
    ((FromError (some e1)).1.code ≠ (FromError (some e2)).1.code →
      (grpcStatusToCloseMessage (some e1)).closeCode
        ≠ (grpcStatusToCloseMessage (some e2)).closeCode) ∧
    (grpcStatusToCloseMessage (some e1)).closeCode - 4000
      = ((FromError (some e1)).1.code : Int) ∧
    (grpcStatusToCloseMessage (some e1)).closeCode ≠ CloseNormalClosure ∧
    (grpcStatusToCloseMessage (some e1)).closeCode ≠ CloseInternalServerErr ∧
    (grpcStatusToCloseMessage (some e1)).closeCode
      ≠ (grpcStatusToCloseMessage none).closeCode ∧
    (∀ e3 : GoError, (FromError (some e3)).2 = false →
      (grpcStatusToCloseMessage (some e1)).closeCode
        ≠ (grpcStatusToCloseMessage (some e3)).closeCode) := by
  have hcode : ∀ e : GoError, (FromError (some e)).2 = true →
      (FromError (some e)).1.code < 61536 →
      (grpcStatusToCloseMessage (some e)).closeCode
        = 4000 + ((FromError (some e)).1.code : Int) := by
    intro e he hlt
    cases e with
    | eof => simp [FromError] at he
    | grpc s =>
      have hs : s.code < 61536 := hlt
      have hmod : (4000 + (s.code : Int)) % 65536 = 4000 + (s.code : Int) :=
        Int.emod_eq_of_lt (by omega) (by omega)
      rw [grpcStatusToCloseMessage_grpc]
      exact hmod
    | plain t => simp [FromError] at he
  have hno : ∀ e : GoError, (FromError (some e)).2 = false →
      (grpcStatusToCloseMessage (some e)).closeCode = 1000 ∨
      (grpcStatusToCloseMessage (some e)).closeCode = 1011 := by
    intro e he
    cases e with
    | eof => exact Or.inl rfl
    | grpc s => simp [FromError] at he
    | plain t => exact Or.inr rfl
  have hnil : (grpcStatusToCloseMessage none).closeCode = 1000 := rfl
  rw [hcode e1 h1 hc1, hcode e2 h2 hc2, hnil]
  simp only [CloseNormalClosure, CloseInternalServerErr]
  refine ⟨fun hne => ?_, by omega, by omega, by omega, by omega, fun e3 h3 => ?_⟩
  · intro heq
    apply hne
    omega
  · rcases hno e3 h3 with h | h <;> rw [h] <;> omega

/-- C12, at the failing inputs: the status codes 65537 and 1 differ and get the same close
frame, with code 4001, so the close code minus 4000 is not the status code; the status
code 62536 gets the close code 1000, that of a clean end-of-stream; and the status code
62547 gets the close code 1011, that of an error without a recognizable status. -/
theorem closeCode_status_confusion :
    grpcStatusToCloseMessage (some (.grpc ⟨65537, "induced"⟩))
      = grpcStatusToCloseMessage (some (.grpc ⟨1, "induced"⟩)) ∧
    (grpcStatusToCloseMessage (some (.grpc ⟨65537, "induced"⟩))).closeCode - 4000 = 1 ∧
    grpcStatusToCloseMessage (some (.grpc ⟨62536, ""⟩))
      = grpcStatusToCloseMessage (some .eof) ∧
    (grpcStatusToCloseMessage (some (.grpc ⟨62536, ""⟩))).closeCode = CloseNormalClosure ∧
    grpcStatusToCloseMessage (some (.grpc ⟨62547, ""⟩))
      = grpcStatusToCloseMessage (some (.plain "connection reset")) ∧
    (grpcStatusToCloseMessage (some (.grpc ⟨62547, ""⟩))).closeCode
      = CloseInternalServerErr := by
  decide

end Gateway
